import Mathlib

/-!
Shallow embedding of the quadrotor simulation core of
`Drone-project/visualization/controllable_drone_model.py` (class
`ControllableDrone`), over exact reals.  Machine floats become `ℝ`;
every call to the `random` module becomes an explicit draw parameter
of the function that performs it (the uniform ranges of the source
become predicates such as `inTargetBox`); database persistence,
printing, wall-clock timestamps and the pure-visualization geometry
are omitted, as they never feed back into the modelled state.
-/

noncomputable section

namespace DroneSim

/-- A 3-vector of reals, standing for the numpy arrays of length 3
used for position, orientation, velocities and biases. -/
@[ext]
structure Vec3 where
  x : ℝ
  y : ℝ
  z : ℝ

/-- Componentwise addition (numpy `a + b`). -/
def Vec3.add (a b : Vec3) : Vec3 :=
  ⟨a.x + b.x, a.y + b.y, a.z + b.z⟩

/-- Componentwise subtraction (numpy `a - b`). -/
def Vec3.sub (a b : Vec3) : Vec3 :=
  ⟨a.x - b.x, a.y - b.y, a.z - b.z⟩

/-- Scalar multiple (numpy `a * c`). -/
def Vec3.smul (c : ℝ) (v : Vec3) : Vec3 :=
  ⟨c * v.x, c * v.y, c * v.z⟩

/-- Componentwise division by a scalar (numpy `v / c`). -/
def Vec3.sdiv (v : Vec3) (c : ℝ) : Vec3 :=
  ⟨v.x / c, v.y / c, v.z / c⟩

/-- The zero vector `np.array([0.0, 0.0, 0.0])`. -/
def Vec3.zero : Vec3 := ⟨0, 0, 0⟩

/-- Euclidean norm, `np.linalg.norm` on a length-3 array. -/
def vnorm (v : Vec3) : ℝ :=
  Real.sqrt (v.x ^ 2 + v.y ^ 2 + v.z ^ 2)

/-- `np.clip(v, lo, hi)` on a scalar: `min(max(v, lo), hi)`. -/
def clip (v lo hi : ℝ) : ℝ :=
  min (max v lo) hi

/-- One value per propeller (the length-4 numpy arrays
`propeller_thrusts`, `propeller_speeds`, `propeller_efficiency`). -/
@[ext]
structure Thrusts4 where
  p0 : ℝ
  p1 : ℝ
  p2 : ℝ
  p3 : ℝ

/-- The flight-volume box `area_limits` (immutable configuration). -/
structure AreaLimits where
  x_min : ℝ
  x_max : ℝ
  y_min : ℝ
  y_max : ℝ
  z_min : ℝ
  z_max : ℝ

/-- The `area_limits` dict from `__init__`. -/
def default_limits : AreaLimits :=
  ⟨-8.0, 8.0, -8.0, 8.0, 0.5, 15.0⟩

/-- Control mode, the string field `control_mode ∈ {'MANUAL','AUTO'}`. -/
inductive Mode where
  | MANUAL : Mode
  | AUTO : Mode
deriving DecidableEq

/-- The guidance output tuple `(total_thrust, target_roll, target_pitch,
target_yaw)` returned by `auto_pilot` and unpacked by `apply_control`
as `thrust, roll, pitch, yaw`. -/
structure CtrlOut where
  thrust : ℝ
  roll : ℝ
  pitch : ℝ
  yaw : ℝ

/-- The mutable state of one `ControllableDrone` instance: every field
of the Python object that the physics/control pipeline reads or
writes.  Omitted: the database/session handles, wall-clock stamps and
the display geometry (visualization only, never read by physics), and
`forces['drag']` (initialized and never read).  `forces['gravity']` is
kept as a field: it is set to 9.81 in `__init__` and never mutated. -/
structure Drone where
  position : Vec3
  orientation : Vec3
  angular_velocity : Vec3
  velocity : Vec3
  linear_acceleration : Vec3
  control_thrust : ℝ
  control_pitch : ℝ
  control_roll : ℝ
  control_yaw : ℝ
  propeller_thrusts : Thrusts4
  propeller_speeds : Thrusts4
  forces_thrust : ℝ
  forces_gravity : ℝ
  forces_wind : Vec3
  area_limits : AreaLimits
  control_mode : Mode
  target_position : Vec3
  target_counter : ℕ
  flight_time : ℝ
  distance_traveled : ℝ
  last_position : Vec3
  max_altitude : ℝ
  max_speed : ℝ
  bias_gyro : Vec3
  bias_accel : Vec3

/-- `propeller_max_thrust = 6.0`. -/
def propeller_max_thrust : ℝ := 6.0

/-- `propeller_efficiency = np.array([0.95, 0.97, 0.96, 0.94])`. -/
def propeller_efficiency : Thrusts4 :=
  ⟨0.95, 0.97, 0.96, 0.94⟩

/-- The four per-propeller thrusts of `calculate_propeller_thrusts`
before the efficiency multiplication and the clipping: base thrust
`total_thrust / 4` plus the roll/pitch/yaw corrections. -/
def raw_propeller_thrusts (total_thrust roll pitch yaw : ℝ) : Thrusts4 :=
  let base_thrust := total_thrust / 4.0
  let roll_correction := roll * 0.5
  let pitch_correction := pitch * 0.5
  let yaw_correction := yaw * 0.3
  ⟨base_thrust - roll_correction + pitch_correction - yaw_correction,
   base_thrust + roll_correction - pitch_correction - yaw_correction,
   base_thrust + roll_correction + pitch_correction + yaw_correction,
   base_thrust - roll_correction - pitch_correction + yaw_correction⟩

/-- `calculate_propeller_thrusts`: raw mix, elementwise efficiency,
then `np.clip(·, 0.1, propeller_max_thrust)` per propeller. -/
def calculate_propeller_thrusts (total_thrust roll pitch yaw : ℝ) : Thrusts4 :=
  let raw := raw_propeller_thrusts total_thrust roll pitch yaw
  ⟨clip (raw.p0 * propeller_efficiency.p0) 0.1 propeller_max_thrust,
   clip (raw.p1 * propeller_efficiency.p1) 0.1 propeller_max_thrust,
   clip (raw.p2 * propeller_efficiency.p2) 0.1 propeller_max_thrust,
   clip (raw.p3 * propeller_efficiency.p3) 0.1 propeller_max_thrust⟩

/-- `update_propeller_speeds` for one propeller:
`500 + 1500 * sqrt(thrust / propeller_max_thrust)`. -/
def propeller_speed_of (thrust : ℝ) : ℝ :=
  500.0 + 1500.0 * Real.sqrt (thrust / propeller_max_thrust)

/-- `update_propeller_speeds` over the whole bank. -/
def speeds_of (t : Thrusts4) : Thrusts4 :=
  ⟨propeller_speed_of t.p0, propeller_speed_of t.p1,
   propeller_speed_of t.p2, propeller_speed_of t.p3⟩

/-- `set_control_input(thrust_change, pitch, roll, yaw)`: clip the
command into the control dict, recompute propeller thrusts and
speeds. -/
def set_control_input (s : Drone) (thrust_change pitch roll yaw : ℝ) : Drone :=
  let th := clip (9.81 + thrust_change * 2.0) 5.0 20.0
  let p := clip pitch (-0.5) 0.5
  let r := clip roll (-0.5) 0.5
  let yw := clip yaw (-0.3) 0.3
  let pt := calculate_propeller_thrusts th r p yw
  { s with
    control_thrust := th
    control_pitch := p
    control_roll := r
    control_yaw := yw
    propeller_thrusts := pt
    propeller_speeds := speeds_of pt }

/-- Ranges of the three `random.uniform` calls in
`generate_random_target`: `x, y ∈ [-6, 6]`, `z ∈ [2, 10]`. -/
def inTargetBox (t : Vec3) : Prop :=
  -6.0 ≤ t.x ∧ t.x ≤ 6.0 ∧ -6.0 ≤ t.y ∧ t.y ≤ 6.0 ∧ 2.0 ≤ t.z ∧ t.z ≤ 10.0

/-- The direction-normalization guard of `auto_pilot` (lines 468-471):
`to_target / distance` when the distance exceeds 0.1, else the zero
vector. -/
def auto_direction (to_target : Vec3) : Vec3 :=
  if vnorm to_target > 0.1 then to_target.sdiv (vnorm to_target)
  else Vec3.zero

/-- `auto_pilot`, with the value that `generate_random_target` would
return supplied as the explicit draw `new_target`.  Returns the control
tuple together with the updated drone (target and waypoint counter).
When the retarget branch is not taken, recomputing `to_target` and the
distance from the unchanged target reproduces the source's reuse of the
first computation. -/
def auto_pilot (s : Drone) (new_target : Vec3) : CtrlOut × Drone :=
  match s.control_mode with
  | Mode.MANUAL => (⟨s.control_thrust, 0, 0, 0⟩, s)
  | Mode.AUTO =>
    let dist0 := vnorm (s.target_position.sub s.position)
    let retarget := dist0 < 1.0
    let tgt := if retarget then new_target else s.target_position
    let cnt := if retarget then s.target_counter + 1 else s.target_counter
    let to_target := tgt.sub s.position
    let direction := auto_direction to_target
    let target_pitch := -direction.x * 0.8
    let target_roll := direction.y * 0.8
    let target_yaw := 0
    let height_error := tgt.z - s.position.z
    let thrust_correction := height_error * 0.5
    let total_thrust := clip (9.81 + thrust_correction) 5.0 20.0
    (⟨total_thrust, target_roll, target_pitch, target_yaw⟩,
     { s with target_position := tgt, target_counter := cnt })

/-- `apply_control`: resolve the guidance output for the current mode,
set angular velocity and total thrust, recompute the propeller bank,
and draw the wind gust (`gust` is the outcome of `random.random() < 0.2`
and `w` the uniform gust vector drawn in that case). -/
def apply_control (s : Drone) (new_target : Vec3) (gust : Bool) (w : Vec3) : Drone :=
  let (out, s1) :=
    match s.control_mode with
    | Mode.AUTO => auto_pilot s new_target
    | Mode.MANUAL =>
      ((⟨s.control_thrust, s.control_roll, s.control_pitch, s.control_yaw⟩ : CtrlOut), s)
  let pt := calculate_propeller_thrusts out.thrust out.roll out.pitch out.yaw
  { s1 with
    angular_velocity := Vec3.smul 0.8 ⟨out.roll, out.pitch, out.yaw⟩
    forces_thrust := out.thrust
    propeller_thrusts := pt
    propeller_speeds := speeds_of pt
    forces_wind := if gust then w else Vec3.zero }

/-- `enforce_area_limits`: hard-clamp the position into the box, then
per axis, inside the 1.0 m border margin, add the source's
`repulsion_force` term to the velocity (`v -= (max - p - 1)*3` at a max
face, `v += (p - min - 1)*3` at a min face). -/
def enforce_area_limits (s : Drone) : Drone :=
  let L := s.area_limits
  let px := clip s.position.x L.x_min L.x_max
  let py := clip s.position.y L.y_min L.y_max
  let pz := clip s.position.z L.z_min L.z_max
  let border_margin := 1.0
  let vx :=
    if px > L.x_max - border_margin then
      s.velocity.x - (L.x_max - px - border_margin) * 3.0
    else if px < L.x_min + border_margin then
      s.velocity.x + (px - L.x_min - border_margin) * 3.0
    else s.velocity.x
  let vy :=
    if py > L.y_max - border_margin then
      s.velocity.y - (L.y_max - py - border_margin) * 3.0
    else if py < L.y_min + border_margin then
      s.velocity.y + (py - L.y_min - border_margin) * 3.0
    else s.velocity.y
  let vz :=
    if pz > L.z_max - border_margin then
      s.velocity.z - (L.z_max - pz - border_margin) * 3.0
    else if pz < L.z_min + border_margin then
      s.velocity.z + (pz - L.z_min - border_margin) * 3.0
    else s.velocity.z
  { s with position := ⟨px, py, pz⟩, velocity := ⟨vx, vy, vz⟩ }

/-- `update_physics(dt)`: integrate orientation and clamp to ±π/4,
build the thrust vector from the clamped angles, sum thrust, gravity,
drag and wind (mass 1), integrate velocity and position, update the
running statistics, enforce the area limits, then apply the 0.7 border
damping within 0.5 m of a face.  The time-gated database save and the
wall-clock stamp are omitted (they do not touch the modelled state). -/
def update_physics (s : Drone) (dt : ℝ) : Drone :=
  let max_angle := Real.pi / 4
  let ori0 := (s.orientation).add (Vec3.smul dt s.angular_velocity)
  let ori : Vec3 :=
    ⟨clip ori0.x (-max_angle) max_angle,
     clip ori0.y (-max_angle) max_angle,
     clip ori0.z (-max_angle) max_angle⟩
  let roll := ori.x
  let pitch := ori.y
  let thrust_vector :=
    Vec3.smul s.forces_thrust
      ⟨Real.sin pitch * Real.cos roll,
       -Real.sin roll * Real.cos pitch,
       Real.cos roll * Real.cos pitch⟩
  let gravity_force : Vec3 := ⟨0, 0, -s.forces_gravity⟩
  let drag_force := Vec3.smul (-0.2) s.velocity
  let total_force :=
    ((thrust_vector.add gravity_force).add drag_force).add s.forces_wind
  let acceleration := total_force
  let vel := (s.velocity).add (Vec3.smul dt acceleration)
  let pos := (s.position).add (Vec3.smul dt vel)
  let s1 : Drone :=
    { s with
      orientation := ori
      linear_acceleration := acceleration
      velocity := vel
      position := pos
      flight_time := s.flight_time + dt
      distance_traveled := s.distance_traveled + vnorm (pos.sub s.last_position)
      last_position := pos
      max_altitude := max s.max_altitude pos.z
      max_speed := max s.max_speed (vnorm vel) }
  let s2 := enforce_area_limits s1
  let border_damping := 0.7
  let L := s2.area_limits
  let vx :=
    if s2.position.x ≥ L.x_max - 0.5 ∨ s2.position.x ≤ L.x_min + 0.5 then
      s2.velocity.x * border_damping
    else s2.velocity.x
  let vy :=
    if s2.position.y ≥ L.y_max - 0.5 ∨ s2.position.y ≤ L.y_min + 0.5 then
      s2.velocity.y * border_damping
    else s2.velocity.y
  let vz :=
    if s2.position.z ≥ L.z_max - 0.5 ∨ s2.position.z ≤ L.z_min + 0.5 then
      s2.velocity.z * border_damping
    else s2.velocity.z
  { s2 with velocity := ⟨vx, vy, vz⟩ }

/-- `calibrate_sensors`: redraw the gyro and accelerometer biases; the
two `np.random.normal` draws are the explicit parameters. -/
def calibrate_sensors (s : Drone) (gyro_draw accel_draw : Vec3) : Drone :=
  { s with bias_gyro := gyro_draw, bias_accel := accel_draw }

/-- `reset()`: restore the deterministic fields to their `__init__`
defaults and recalibrate the sensors with fresh draws.  As in the
source, `control_mode`, `target_position`, `forces` and `area_limits`
are not touched. -/
def reset (s : Drone) (gyro_draw accel_draw : Vec3) : Drone :=
  calibrate_sensors
    { s with
      position := ⟨0.0, 0.0, 3.0⟩
      orientation := Vec3.zero
      velocity := Vec3.zero
      angular_velocity := Vec3.zero
      linear_acceleration := Vec3.zero
      control_thrust := 9.81
      control_pitch := 0.0
      control_roll := 0.0
      control_yaw := 0.0
      propeller_thrusts := ⟨2.4525, 2.4525, 2.4525, 2.4525⟩
      propeller_speeds := ⟨1000.0, 1000.0, 1000.0, 1000.0⟩
      flight_time := 0.0
      distance_traveled := 0.0
      last_position := ⟨0.0, 0.0, 3.0⟩
      max_altitude := 0.0
      max_speed := 0.0
      target_counter := 0 }
    gyro_draw accel_draw

/-- `__init__`: the freshly constructed drone; the initial random
target draw is the explicit parameter.  Initial biases are the fixed
`sensor_noise` bias arrays of `__init__`. -/
def initial_drone (target_draw : Vec3) : Drone :=
  { position := ⟨0.0, 0.0, 3.0⟩
    orientation := Vec3.zero
    angular_velocity := Vec3.zero
    velocity := Vec3.zero
    linear_acceleration := Vec3.zero
    control_thrust := 9.81
    control_pitch := 0.0
    control_roll := 0.0
    control_yaw := 0.0
    propeller_thrusts := ⟨2.4525, 2.4525, 2.4525, 2.4525⟩
    propeller_speeds := ⟨1000.0, 1000.0, 1000.0, 1000.0⟩
    forces_thrust := 9.81
    forces_gravity := 9.81
    forces_wind := Vec3.zero
    area_limits := default_limits
    control_mode := Mode.MANUAL
    target_position := target_draw
    target_counter := 0
    flight_time := 0.0
    distance_traveled := 0.0
    last_position := ⟨0.0, 0.0, 3.0⟩
    max_altitude := 0.0
    max_speed := 0.0
    bias_gyro := ⟨0.002, 0.001, -0.003⟩
    bias_accel := ⟨0.05, -0.03, 0.02⟩ }

/-- Position lies inside the flight-volume box on all three axes. -/
def inBox (p : Vec3) (L : AreaLimits) : Prop :=
  L.x_min ≤ p.x ∧ p.x ≤ L.x_max ∧
  L.y_min ≤ p.y ∧ p.y ≤ L.y_max ∧
  L.z_min ≤ p.z ∧ p.z ≤ L.z_max

/-- The box is well formed: each min is at most the matching max. -/
def wfLimits (L : AreaLimits) : Prop :=
  L.x_min ≤ L.x_max ∧ L.y_min ≤ L.y_max ∧ L.z_min ≤ L.z_max

/-- Concrete state for the boundary-repulsion scenario: the default
drone moved to `position.x = x_max - 0.3 = 7.7`, all velocities zero. -/
def c1_state : Drone :=
  { initial_drone Vec3.zero with position := ⟨7.7, 0.0, 3.0⟩ }

/-- Concrete default state used to instantiate the tick invariant. -/
def c2_state : Drone :=
  initial_drone Vec3.zero

/-- Concrete AUTO-mode state: default drone at position `(0,0,3)` with
target `(6,0,3)`, six metres away along the x-axis. -/
def c3_state : Drone :=
  { initial_drone ⟨6.0, 0.0, 3.0⟩ with control_mode := Mode.AUTO }

/-- Concrete AUTO-mode state whose target coincides with its position,
so the waypoint is already reached. -/
def c5_state : Drone :=
  { initial_drone ⟨0.0, 0.0, 3.0⟩ with control_mode := Mode.AUTO }

/-- A concrete draw for the regenerated target, inside the draw box. -/
def c5_draw : Vec3 := ⟨1.0, 2.0, 5.0⟩

/-- The hover-trim scenario: from the freshly constructed drone, set
the neutral control `(0,0,0,0)`, apply it with no wind gust drawn, and
advance one physics tick of `dt = 0.05`. -/
def hover_tick (target_draw : Vec3) : Drone :=
  update_physics
    (apply_control (set_control_input (initial_drone target_draw) 0 0 0 0)
      target_draw false Vec3.zero)
    0.05

theorem clip_le_right (v lo hi : ℝ) : clip v lo hi ≤ hi :=
  min_le_right _ _

theorem le_clip (v : ℝ) {lo hi : ℝ} (h : lo ≤ hi) : lo ≤ clip v lo hi :=
  le_min (le_max_right _ _) h

theorem abs_clip_le (v : ℝ) {m : ℝ} (hm : 0 ≤ m) : |clip v (-m) m| ≤ m :=
  abs_le.mpr ⟨le_clip v (by linarith), clip_le_right v _ _⟩

theorem clip_eq_self {v lo hi : ℝ} (h1 : lo ≤ v) (h2 : v ≤ hi) :
    clip v lo hi = v := by
  simp [clip, max_eq_left h1, min_eq_left h2]

/-- C10: the four per-propeller thrusts computed from
`base = total_thrust/4` with the roll, pitch and yaw corrections sum
exactly to `total_thrust` before the efficiency multiplication and the
clipping: the corrections cancel pairwise. -/
theorem C10_raw_thrusts_sum (total_thrust roll pitch yaw : ℝ) :
    (raw_propeller_thrusts total_thrust roll pitch yaw).p0 +
      (raw_propeller_thrusts total_thrust roll pitch yaw).p1 +
      (raw_propeller_thrusts total_thrust roll pitch yaw).p2 +
      (raw_propeller_thrusts total_thrust roll pitch yaw).p3 = total_thrust := by
  simp only [raw_propeller_thrusts]
  ring

/-- C6: `set_control_input` is total and clamps: after any call, the
stored control input satisfies `thrust ∈ [5, 20]`,
`pitch, roll ∈ [-0.5, 0.5]`, `yaw ∈ [-0.3, 0.3]`. -/
theorem C6_set_control_input_clamped (s : Drone) (tc p r y : ℝ) :
    5.0 ≤ (set_control_input s tc p r y).control_thrust ∧
    (set_control_input s tc p r y).control_thrust ≤ 20.0 ∧
    -0.5 ≤ (set_control_input s tc p r y).control_pitch ∧
    (set_control_input s tc p r y).control_pitch ≤ 0.5 ∧
    -0.5 ≤ (set_control_input s tc p r y).control_roll ∧
    (set_control_input s tc p r y).control_roll ≤ 0.5 ∧
    -0.3 ≤ (set_control_input s tc p r y).control_yaw ∧
    (set_control_input s tc p r y).control_yaw ≤ 0.3 := by
  simp only [set_control_input]
  refine ⟨le_clip _ (by norm_num), clip_le_right _ _ _,
    le_clip _ (by norm_num), clip_le_right _ _ _,
    le_clip _ (by norm_num), clip_le_right _ _ _,
    le_clip _ (by norm_num), clip_le_right _ _ _⟩

/-- C9: for every valid control input, each of the four propeller
thrusts produced by the mixer lies within `[0.1, propeller_max_thrust]`. -/
theorem C9_mixer_output_in_range (total_thrust roll pitch yaw : ℝ)
    (h1 : 5.0 ≤ total_thrust) (h2 : total_thrust ≤ 20.0)
    (hr : |roll| ≤ 0.5) (hp : |pitch| ≤ 0.5) (hy : |yaw| ≤ 0.3) :
    (0.1 ≤ (calculate_propeller_thrusts total_thrust roll pitch yaw).p0 ∧
      (calculate_propeller_thrusts total_thrust roll pitch yaw).p0 ≤ propeller_max_thrust) ∧
    (0.1 ≤ (calculate_propeller_thrusts total_thrust roll pitch yaw).p1 ∧
      (calculate_propeller_thrusts total_thrust roll pitch yaw).p1 ≤ propeller_max_thrust) ∧
    (0.1 ≤ (calculate_propeller_thrusts total_thrust roll pitch yaw).p2 ∧
      (calculate_propeller_thrusts total_thrust roll pitch yaw).p2 ≤ propeller_max_thrust) ∧
    (0.1 ≤ (calculate_propeller_thrusts total_thrust roll pitch yaw).p3 ∧
      (calculate_propeller_thrusts total_thrust roll pitch yaw).p3 ≤ propeller_max_thrust) := by
  simp only [calculate_propeller_thrusts]
  have h6 : (0.1 : ℝ) ≤ propeller_max_thrust := by norm_num [propeller_max_thrust]
  exact ⟨⟨le_clip _ h6, clip_le_right _ _ _⟩, ⟨le_clip _ h6, clip_le_right _ _ _⟩,
    ⟨le_clip _ h6, clip_le_right _ _ _⟩, ⟨le_clip _ h6, clip_le_right _ _ _⟩⟩

/-- Witness for C9 at the trim input `(9.81, 0, 0, 0)`. -/
theorem C9_mixer_output_in_range_witness :
    (0.1 ≤ (calculate_propeller_thrusts 9.81 0 0 0).p0 ∧
      (calculate_propeller_thrusts 9.81 0 0 0).p0 ≤ propeller_max_thrust) ∧
    (0.1 ≤ (calculate_propeller_thrusts 9.81 0 0 0).p1 ∧
      (calculate_propeller_thrusts 9.81 0 0 0).p1 ≤ propeller_max_thrust) ∧
    (0.1 ≤ (calculate_propeller_thrusts 9.81 0 0 0).p2 ∧
      (calculate_propeller_thrusts 9.81 0 0 0).p2 ≤ propeller_max_thrust) ∧
    (0.1 ≤ (calculate_propeller_thrusts 9.81 0 0 0).p3 ∧
      (calculate_propeller_thrusts 9.81 0 0 0).p3 ≤ propeller_max_thrust) :=
  C9_mixer_output_in_range 9.81 0 0 0 (by norm_num) (by norm_num)
    (by norm_num) (by norm_num) (by norm_num)

/-- C1, evaluated at the claim's own scenario: at
`position.x = x_max - 0.3 = 7.7` with zero velocity, the
boundary-enforcement step sets `velocity.x` to `2.1 > 0`, accelerating
the drone toward the `x_max` face — the velocity increases instead of
decreasing, so the correction is directed toward the face, not away
from it. -/
theorem C1_repulsion_pushes_outward :
    c1_state.velocity.x = 0 ∧
    (enforce_area_limits c1_state).velocity.x = 2.1 ∧
    c1_state.velocity.x < (enforce_area_limits c1_state).velocity.x := by
  norm_num [c1_state, initial_drone, enforce_area_limits, default_limits,
    clip, Vec3.zero]

/-- C2: after any `update_physics` tick from any state whose area
limits are well formed, the position lies inside the box on all three
axes and every orientation angle has magnitude at most π/4. -/
theorem C2_update_physics_invariant (s : Drone) (dt : ℝ)
    (h : wfLimits s.area_limits) :
    inBox (update_physics s dt).position s.area_limits ∧
    |(update_physics s dt).orientation.x| ≤ Real.pi / 4 ∧
    |(update_physics s dt).orientation.y| ≤ Real.pi / 4 ∧
    |(update_physics s dt).orientation.z| ≤ Real.pi / 4 := by
  obtain ⟨hx, hy, hz⟩ := h
  have hpi : (0 : ℝ) ≤ Real.pi / 4 := by positivity
  simp only [update_physics, enforce_area_limits, inBox]
  refine ⟨⟨le_clip _ hx, clip_le_right _ _ _, le_clip _ hy, clip_le_right _ _ _,
    le_clip _ hz, clip_le_right _ _ _⟩, ?_, ?_, ?_⟩ <;>
    exact abs_clip_le _ hpi

/-- Witness for C2 at the default drone and `dt = 0.05`. -/
theorem C2_update_physics_invariant_witness :
    wfLimits c2_state.area_limits ∧
    (inBox (update_physics c2_state 0.05).position c2_state.area_limits ∧
      |(update_physics c2_state 0.05).orientation.x| ≤ Real.pi / 4 ∧
      |(update_physics c2_state 0.05).orientation.y| ≤ Real.pi / 4 ∧
      |(update_physics c2_state 0.05).orientation.z| ≤ Real.pi / 4) :=
  ⟨by norm_num [c2_state, initial_drone, default_limits, wfLimits],
   C2_update_physics_invariant c2_state 0.05
     (by norm_num [c2_state, initial_drone, default_limits, wfLimits])⟩

/-- C4, as stated, is false: the second `reset` redraws the sensor
biases with fresh randomness, so with distinct bias draws the state
after two resets differs from the state after one (here in
`bias_gyro.x`). -/
theorem C4_reset_not_literally_idempotent :
    reset (reset (initial_drone Vec3.zero) Vec3.zero Vec3.zero)
        ⟨0.001, 0, 0⟩ Vec3.zero ≠
      reset (initial_drone Vec3.zero) Vec3.zero Vec3.zero := by
  intro h
  have hx := congrArg (fun d => d.bias_gyro.x) h
  norm_num [reset, calibrate_sensors, Vec3.zero] at hx

/-- C4 amended: `reset` restores the deterministic state to the
defaults (position `(0,0,3)`, zero velocity and orientation, thrust
9.81, propeller thrusts `[2.4525]×4`) and installs the fresh bias
draws, and resetting twice equals resetting once with the second
call's draws — so the two runs agree on everything except the randomly
redrawn sensor biases, and coincide exactly when the draws coincide. -/
theorem C4_reset_defaults_and_composition :
    (∀ (s : Drone) (g a : Vec3),
      (reset s g a).position = ⟨0.0, 0.0, 3.0⟩ ∧
      (reset s g a).velocity = Vec3.zero ∧
      (reset s g a).orientation = Vec3.zero ∧
      (reset s g a).control_thrust = 9.81 ∧
      (reset s g a).propeller_thrusts = ⟨2.4525, 2.4525, 2.4525, 2.4525⟩ ∧
      (reset s g a).bias_gyro = g ∧
      (reset s g a).bias_accel = a) ∧
    (∀ (s : Drone) (g1 a1 g2 a2 : Vec3),
      reset (reset s g1 a1) g2 a2 = reset s g2 a2) :=
  ⟨fun s g a => ⟨rfl, rfl, rfl, rfl, rfl, rfl, rfl⟩,
   fun s g1 a1 g2 a2 => rfl⟩

/-- C8: the direction normalization of `auto_pilot` is guarded —
below the 0.1 m threshold the direction is the zero vector (no
division occurs), and beyond it the direction is the target offset
divided by the distance. -/
theorem C8_direction_guard (v : Vec3) :
    (vnorm v < 0.1 → auto_direction v = Vec3.zero) ∧
    (vnorm v > 0.1 → auto_direction v = v.sdiv (vnorm v)) := by
  constructor
  · intro h
    rw [auto_direction, if_neg (by linarith)]
  · intro h
    rw [auto_direction, if_pos h]

/-- Witness for C8 at the zero offset, whose norm 0 is below the
threshold. -/
theorem C8_direction_guard_witness : auto_direction Vec3.zero = Vec3.zero :=
  (C8_direction_guard Vec3.zero).1
    (by norm_num [vnorm, Vec3.zero, Real.sqrt_zero])

/-- C5: in AUTO mode, on a tick where the distance to the target is
below 1.0 the target becomes the fresh draw (which lies in the
`x, y ∈ [-6,6]`, `z ∈ [2,10]` box, the ranges of the source's uniform
draws) and the waypoint counter increments by exactly one; otherwise
target and counter are unchanged. -/
theorem C5_waypoint_step (s : Drone) (d : Vec3)
    (hm : s.control_mode = Mode.AUTO) (hd : inTargetBox d) :
    (vnorm (s.target_position.sub s.position) < 1.0 →
      (auto_pilot s d).2.target_position = d ∧
      inTargetBox (auto_pilot s d).2.target_position ∧
      (auto_pilot s d).2.target_counter = s.target_counter + 1) ∧
    (¬ vnorm (s.target_position.sub s.position) < 1.0 →
      (auto_pilot s d).2.target_position = s.target_position ∧
      (auto_pilot s d).2.target_counter = s.target_counter) := by
  simp only [auto_pilot, hm]
  constructor
  · intro h
    rw [if_pos h, if_pos h]
    exact ⟨rfl, hd, rfl⟩
  · intro h
    rw [if_neg h, if_neg h]
    exact ⟨rfl, rfl⟩

/-- Witness for C5: the drone sitting on its target (distance 0 < 1)
retargets to the draw `(1,2,5)` and counts its first waypoint. -/
theorem C5_waypoint_step_witness :
    (auto_pilot c5_state c5_draw).2.target_position = c5_draw ∧
    (auto_pilot c5_state c5_draw).2.target_counter = 1 := by
  have h := C5_waypoint_step c5_state c5_draw rfl
    (by norm_num [inTargetBox, c5_draw])
  have hdist : vnorm (c5_state.target_position.sub c5_state.position) < 1.0 := by
    norm_num [c5_state, initial_drone, vnorm, Vec3.sub, Real.sqrt_zero]
  obtain ⟨ht, -, hc⟩ := h.1 hdist
  refine ⟨ht, ?_⟩
  rw [hc]
  rfl

theorem abs_x_le_vnorm (v : Vec3) : |v.x| ≤ vnorm v := by
  rw [← Real.sqrt_sq_eq_abs, vnorm]
  exact Real.sqrt_le_sqrt (by nlinarith [sq_nonneg v.y, sq_nonneg v.z])

theorem abs_y_le_vnorm (v : Vec3) : |v.y| ≤ vnorm v := by
  rw [← Real.sqrt_sq_eq_abs, vnorm]
  exact Real.sqrt_le_sqrt (by nlinarith [sq_nonneg v.x, sq_nonneg v.z])

theorem auto_direction_bounds (v : Vec3) :
    |(auto_direction v).x| ≤ 1 ∧ |(auto_direction v).y| ≤ 1 := by
  rw [auto_direction]
  split
  case isTrue h =>
    have hpos : 0 < vnorm v := by linarith
    constructor
    · rw [Vec3.sdiv, abs_div, abs_of_pos hpos, div_le_one hpos]
      exact abs_x_le_vnorm v
    · rw [Vec3.sdiv, abs_div, abs_of_pos hpos, div_le_one hpos]
      exact abs_y_le_vnorm v
  case isFalse h =>
    norm_num [Vec3.zero]

/-- C3 fails on the code in AUTO mode: with the drone at `(0,0,3)` and
the target at `(6,0,3)` (unit direction `(1,0,0)`), `auto_pilot`
returns `target_pitch = -0.8`, outside the declared `[-0.5, 0.5]`
range — the AUTO outputs are not clipped to the `ControlInput`
ranges. -/
theorem C3_auto_pitch_out_of_range :
    (auto_pilot c3_state Vec3.zero).1.pitch = -0.8 ∧
    (auto_pilot c3_state Vec3.zero).1.pitch < -0.5 := by
  have hmode : c3_state.control_mode = Mode.AUTO := rfl
  have htgt : c3_state.target_position = ⟨6.0, 0.0, 3.0⟩ := rfl
  have hpos : c3_state.position = ⟨0.0, 0.0, 3.0⟩ := rfl
  have hsub : Vec3.sub (⟨6.0, 0.0, 3.0⟩ : Vec3) ⟨0.0, 0.0, 3.0⟩ = ⟨6, 0, 0⟩ := by
    rw [Vec3.sub]
    norm_num
  have h6 : vnorm (⟨6, 0, 0⟩ : Vec3) = 6 := by
    rw [vnorm]
    norm_num
    rw [show (36 : ℝ) = 6 ^ 2 by norm_num]
    exact Real.sqrt_sq (by norm_num)
  have hdir : auto_direction ⟨6, 0, 0⟩ = ⟨1, 0, 0⟩ := by
    rw [auto_direction, h6, if_pos (by norm_num : (6 : ℝ) > 0.1), Vec3.sdiv]
    norm_num
  have hmain : (auto_pilot c3_state Vec3.zero).1.pitch = -0.8 := by
    simp only [auto_pilot, hmode, htgt, hpos, hsub, h6]
    rw [if_neg (by norm_num : ¬(6 : ℝ) < 1.0)]
    simp only [hsub, hdir]
    norm_num
  exact ⟨hmain, by rw [hmain]; norm_num⟩

/-- C3 amended: `set_control_input` always stores a clipped input
inside the declared ranges (MANUAL path), and in AUTO mode the
guidance output satisfies `thrust ∈ [5, 20]` and `yaw = 0`, but pitch
and roll are only bounded by `±0.8` (unit direction scaled by 0.8,
never clipped to `±0.5`). -/
theorem C3_control_ranges :
    (∀ (s : Drone) (tc p r y : ℝ),
      5.0 ≤ (set_control_input s tc p r y).control_thrust ∧
      (set_control_input s tc p r y).control_thrust ≤ 20.0 ∧
      -0.5 ≤ (set_control_input s tc p r y).control_pitch ∧
      (set_control_input s tc p r y).control_pitch ≤ 0.5 ∧
      -0.5 ≤ (set_control_input s tc p r y).control_roll ∧
      (set_control_input s tc p r y).control_roll ≤ 0.5 ∧
      -0.3 ≤ (set_control_input s tc p r y).control_yaw ∧
      (set_control_input s tc p r y).control_yaw ≤ 0.3) ∧
    (∀ (s : Drone) (d : Vec3), s.control_mode = Mode.AUTO →
      5.0 ≤ (auto_pilot s d).1.thrust ∧
      (auto_pilot s d).1.thrust ≤ 20.0 ∧
      (auto_pilot s d).1.yaw = 0 ∧
      |(auto_pilot s d).1.pitch| ≤ 0.8 ∧
      |(auto_pilot s d).1.roll| ≤ 0.8) := by
  have hb : ∀ v : Vec3,
      |(-(auto_direction v).x * 0.8)| ≤ 0.8 ∧
      |((auto_direction v).y * 0.8)| ≤ 0.8 := by
    intro v
    obtain ⟨h1, h2⟩ := auto_direction_bounds v
    constructor
    · calc |(-(auto_direction v).x * 0.8)|
          = |(auto_direction v).x| * 0.8 := by
            rw [abs_mul, abs_neg, abs_of_pos (by norm_num : (0 : ℝ) < 0.8)]
        _ ≤ 1 * 0.8 := mul_le_mul_of_nonneg_right h1 (by norm_num)
        _ = 0.8 := by norm_num
    · calc |((auto_direction v).y * 0.8)|
          = |(auto_direction v).y| * 0.8 := by
            rw [abs_mul, abs_of_pos (by norm_num : (0 : ℝ) < 0.8)]
        _ ≤ 1 * 0.8 := mul_le_mul_of_nonneg_right h2 (by norm_num)
        _ = 0.8 := by norm_num
  constructor
  · intro s tc p r y
    simp only [set_control_input]
    exact ⟨le_clip _ (by norm_num), clip_le_right _ _ _,
      le_clip _ (by norm_num), clip_le_right _ _ _,
      le_clip _ (by norm_num), clip_le_right _ _ _,
      le_clip _ (by norm_num), clip_le_right _ _ _⟩
  · intro s d hm
    simp only [auto_pilot, hm]
    exact ⟨le_clip _ (by norm_num), clip_le_right _ _ _, trivial,
      (hb _).1, (hb _).2⟩

/-- Witness for C3's amended AUTO part at the concrete AUTO state. -/
theorem C3_control_ranges_witness :
    5.0 ≤ (auto_pilot c3_state Vec3.zero).1.thrust ∧
    (auto_pilot c3_state Vec3.zero).1.thrust ≤ 20.0 ∧
    (auto_pilot c3_state Vec3.zero).1.yaw = 0 ∧
    |(auto_pilot c3_state Vec3.zero).1.pitch| ≤ 0.8 ∧
    |(auto_pilot c3_state Vec3.zero).1.roll| ≤ 0.8 :=
  C3_control_ranges.2 c3_state Vec3.zero rfl

/-- C7: from the default state, after the neutral command
`set_control_input(0,0,0,0)`, `apply_control` with no wind gust drawn,
and one `update_physics` tick with `dt = 0.05`, the vertical velocity
equals `(9.81 - 9.81 - 0) * 0.05`, i.e. exactly 0 (drag is zero at
zero velocity): hover is stable at trim thrust. -/
theorem C7_hover_trim (t0 : Vec3) :
    (hover_tick t0).velocity.z = (9.81 - 9.81 - 0) * 0.05 ∧
    (hover_tick t0).velocity.z = 0 := by
  have hs2 : apply_control (set_control_input (initial_drone t0) 0 0 0 0)
      t0 false Vec3.zero =
      { initial_drone t0 with
        control_thrust := 9.81
        control_pitch := 0
        control_roll := 0
        control_yaw := 0
        angular_velocity := Vec3.zero
        forces_thrust := 9.81
        forces_wind := Vec3.zero
        propeller_thrusts := calculate_propeller_thrusts 9.81 0 0 0
        propeller_speeds := speeds_of (calculate_propeller_thrusts 9.81 0 0 0) } := by
    simp only [apply_control, set_control_input, initial_drone]
    norm_num [clip, min_def, max_def, Vec3.smul, Vec3.zero]
  have hp1 : ¬(Real.pi / 4 ≤ 0) := not_le.mpr (by positivity)
  have hp2 : (0 : ℝ) ≤ Real.pi / 4 := le_of_lt (by positivity)
  have hp3 : -(Real.pi / 4) ≤ 0 := neg_nonpos.mpr hp2
  have hp4 : ¬((0 : ℝ) ≤ -(Real.pi / 4)) :=
    not_le.mpr (neg_lt_zero.mpr (by positivity))
  have hz : (hover_tick t0).velocity.z = 0 := by
    rw [hover_tick, hs2]
    simp only [update_physics, enforce_area_limits, initial_drone]
    norm_num [Vec3.add, Vec3.smul, Vec3.zero, Real.sin_zero, Real.cos_zero,
      clip, min_def, max_def, default_limits, hp1, hp2, hp3, hp4]
  exact ⟨by rw [hz]; norm_num, hz⟩

end DroneSim

end
